import Mathlib

/-!
Shallow embedding of the book-exchange backend (FastAPI + SQLModel).

The repository's handlers are pure HTTP-to-database glue; each handler is
embedded as a pure function from the committed store (and the request data)
to `Except HTTPErr (Store × response)`.  `database.py`'s `get_session` yields
a session that rolls back when a handler raises, so a request that ends in
an `HTTPException` leaves the committed store unchanged; `handledStore`
expresses that convention.  Timestamps (`datetime.utcnow`) are passed in
explicitly as a `Nat` parameter `now`.

The repository mixes several revisions of the same files.  Where a claim is
decided by a revision's code that is present (`routes/exchanges.py`,
`routes/users.py`, `routes/books.py`, `routes/auth.py`, `security.py`,
`models.py`), the embedding follows that file line by line.  Two pieces are
not in the source tree and are modelled from the spec, each marked in its
doc comment: the bcrypt credential store (passlib) and the JWT
signing/verification (python-jose).
-/

namespace BookExchange

/-- Modelled from the spec: `routes/exchanges.py` imports `ExchangeStatus`
from a `models.py` revision that is not among the source files (the
`models.py` present types `status` as a plain string whose documented values
are "pending, accepted, declined, completed").  The spec lists the enumerated
status set of this variant as pending/accepted/declined/completed. -/
inductive ExchangeStatus where
  | pending
  | accepted
  | declined
  | completed
deriving DecidableEq, Repr

/-- `models.py` `Family`: id (primary key) and name. -/
structure Family where
  id : Nat
  name : String
deriving DecidableEq, Repr

/-- `models.py` `User`: unique username and email, bcrypt digest, active
flag, optional family reference. -/
structure User where
  id : Nat
  username : String
  email : String
  hashed_password : String
  is_active : Bool
  family_id : Option Nat
deriving DecidableEq, Repr

/-- `models.py` `Book`: title, optional author/grade/isbn, creation
timestamp, owner reference. -/
structure Book where
  id : Nat
  title : String
  author : Option String
  grade : Option Int
  isbn : Option String
  added_at : Nat
  owner_id : Nat
deriving DecidableEq, Repr

/-- The `Exchange` row as constructed and read by `routes/exchanges.py`
(`ExchangeCreate`/`ExchangeRead`): proposer and receiver family, offered and
requested book, status, created/updated timestamps. -/
structure Exchange where
  id : Nat
  proposer_family_id : Nat
  receiver_family_id : Nat
  offered_book_id : Nat
  requested_book_id : Nat
  status : ExchangeStatus
  created_at : Nat
  updated_at : Nat
deriving DecidableEq, Repr

/-- The committed relational store: one list per table plus the
autoincrement counter for each primary key. -/
structure Store where
  families : List Family
  users : List User
  books : List Book
  exchanges : List Exchange
  next_family_id : Nat
  next_user_id : Nat
  next_book_id : Nat
  next_exchange_id : Nat
deriving DecidableEq, Repr

/-- A raised `HTTPException`: status code and detail string. -/
structure HTTPErr where
  status_code : Nat
  detail : String
deriving DecidableEq, Repr

/-- `session.get(Family, i)`: primary-key lookup. -/
def getFamily (db : Store) (i : Nat) : Option Family :=
  db.families.find? (fun f => f.id == i)

/-- `session.get(User, i)`: primary-key lookup. -/
def getUser (db : Store) (i : Nat) : Option User :=
  db.users.find? (fun u => u.id == i)

/-- `session.get(Book, i)`: primary-key lookup. -/
def getBook (db : Store) (i : Nat) : Option Book :=
  db.books.find? (fun b => b.id == i)

/-- `session.get(Exchange, i)`: primary-key lookup. -/
def getExchange (db : Store) (i : Nat) : Option Exchange :=
  db.exchanges.find? (fun e => e.id == i)

/-- `select(User).where(User.username == un)` followed by `.first()`. -/
def findUserByUsername (db : Store) (un : String) : Option User :=
  db.users.find? (fun u => u.username == un)

/-- `get_session` rolls the session back when a handler raises, so the
committed store after a request is the handler's store on success and the
original store on an HTTP error. -/
def handledStore {α : Type} (db : Store) (r : Except HTTPErr (Store × α)) : Store :=
  match r with
  | .ok (db2, _) => db2
  | .error _ => db

/-! ## Credential store (`security.py`, delegating to passlib bcrypt) -/

/-- Modelled from the spec: `get_password_hash` delegates to passlib's
bcrypt `CryptContext`, whose code is not in the repository.  The spec's
Credential Store contract (§4.1) is a salted, irreversible digest such
that `verify` checks a candidate with the same algorithm family; the digest
is modelled as an opaque tagged string determined by the password. -/
def get_password_hash (password : String) : String :=
  "$2b$12$" ++ password

/-- Modelled from the spec: `verify_password` delegates to passlib's bcrypt
verify, which accepts exactly the candidate that produced the digest
(§8: for the registered password true, for any other password false). -/
def verify_password (plain_password hashed_password : String) : Bool :=
  hashed_password == get_password_hash plain_password

/-- `security.py` `authenticate_user`: look up the username, then check the
submitted password against the stored digest; `none` on either failure. -/
def authenticate_user (db : Store) (username password : String) : Option User :=
  match findUserByUsername db username with
  | none => none
  | some user =>
    if verify_password password user.hashed_password then some user else none

/-! ## Token service (`security.py`, delegating to python-jose) -/

def SECRET_KEY : String := "CHANGE_ME_TO_STRONG_SECRET"

def ACCESS_TOKEN_EXPIRE_MINUTES : Nat := 60

/-- The claims carried by the tokens this app issues: the subject claim
(`"sub"`, absent when the encoded dict had none) and the absolute expiry
instant (`"exp"`, seconds). -/
structure TokenPayload where
  sub : Option String
  exp : Nat
deriving DecidableEq, Repr

/-- Modelled from the spec: the HS256 signature computed by python-jose
over the payload with the server key, treated as an ideal MAC (two
signatures coincide exactly when key and payload coincide). -/
structure Signature where
  key : String
  signed_payload : TokenPayload
deriving DecidableEq, Repr

/-- Modelled from the spec: ideal-MAC signing used by `jwt.encode`. -/
def hmac_sign (key : String) (payload : TokenPayload) : Signature :=
  ⟨key, payload⟩

/-- A signed token: payload plus signature (signed, not encrypted). -/
structure Token where
  payload : TokenPayload
  sig : Signature
deriving DecidableEq, Repr

/-- Modelled from the spec: `jose.jwt.encode(payload, key, HS256)`. -/
def jwt_encode (payload : TokenPayload) (key : String) : Token :=
  ⟨payload, hmac_sign key payload⟩

/-- Modelled from the spec: `jose.jwt.decode(token, key, [HS256])` checks
the signature against the key and rejects an elapsed expiry claim, raising
`JWTError` (here: `Except.error`) in both cases; it never crashes. -/
def jwt_decode (t : Token) (key : String) (now : Nat) : Except String TokenPayload :=
  if t.sig ≠ hmac_sign key t.payload then
    .error "Signature verification failed."
  else if t.payload.exp < now then
    .error "Signature has expired."
  else
    .ok t.payload

/-- `security.py` `create_access_token`: copy the data, add an `exp` claim
`utcnow + (expires_delta or 60 minutes)`, sign with `SECRET_KEY`. -/
def create_access_token (sub : Option String) (expires_delta : Option Nat)
    (now : Nat) : Token :=
  jwt_encode ⟨sub, now + expires_delta.getD (ACCESS_TOKEN_EXPIRE_MINUTES * 60)⟩ SECRET_KEY

/-- The 401 raised by `get_current_user` for any invalid token. -/
def credentials_exception : HTTPErr :=
  ⟨401, "Could not validate credentials"⟩

/-- `security.py` `get_current_user`: decode and verify the JWT, extract
the `sub` claim, and resolve the user by username; 401 when decoding fails,
the subject claim is missing, or no such user exists. -/
def get_current_user (token : Token) (db : Store) (now : Nat) : Except HTTPErr User :=
  match jwt_decode token SECRET_KEY now with
  | .error _ => .error credentials_exception
  | .ok payload =>
    match payload.sub with
    | none => .error credentials_exception
    | some username =>
      match findUserByUsername db username with
      | none => .error credentials_exception
      | some user => .ok user

/-- `security.py` `get_current_active_user`: the `is_active` check is
commented out in the source; the resolved user is returned unchanged. -/
def get_current_active_user (current_user : User) : User :=
  current_user

/-! ## Exchange handlers (`routes/exchanges.py`) -/

/-- `ExchangeCreate` request schema. -/
structure ExchangeCreate where
  proposer_family_id : Nat
  receiver_family_id : Nat
  offered_book_id : Nat
  requested_book_id : Nat
deriving DecidableEq, Repr

/-- `create_exchange` (`routes/exchanges.py` lines 68-106): validate that
both families exist, then that both books exist, raising 400 before any
mutation on a failed lookup; on success insert one Exchange row with
status `pending` and creation timestamp `now` and commit. -/
def create_exchange (db : Store) (exchange_in : ExchangeCreate) (now : Nat) :
    Except HTTPErr (Store × Exchange) :=
  if (getFamily db exchange_in.proposer_family_id).isNone
      || (getFamily db exchange_in.receiver_family_id).isNone then
    .error ⟨400, "One or both family IDs are invalid."⟩
  else if (getBook db exchange_in.offered_book_id).isNone
      || (getBook db exchange_in.requested_book_id).isNone then
    .error ⟨400, "One or both book IDs are invalid."⟩
  else
    let exch : Exchange :=
      ⟨db.next_exchange_id, exchange_in.proposer_family_id,
        exchange_in.receiver_family_id, exchange_in.offered_book_id,
        exchange_in.requested_book_id, ExchangeStatus.pending, now, now⟩
    .ok ({ db with
             exchanges := db.exchanges ++ [exch],
             next_exchange_id := db.next_exchange_id + 1 }, exch)

/-- `update_exchange` (`routes/exchanges.py` lines 128-151): 404 when the
id resolves to no exchange; otherwise overwrite `status` with the supplied
value unconditionally, stamp `updated_at`, and commit. -/
def update_exchange (db : Store) (exchange_id : Nat) (new_status : ExchangeStatus)
    (now : Nat) : Except HTTPErr (Store × Exchange) :=
  match getExchange db exchange_id with
  | none => .error ⟨404, "Exchange not found."⟩
  | some exch =>
    let exch2 : Exchange := { exch with status := new_status, updated_at := now }
    .ok ({ db with exchanges :=
            db.exchanges.map (fun x => if x.id == exchange_id then exch2 else x) },
         exch2)

/-- `delete_exchange` (`routes/exchanges.py` lines 154-172): 404 when the
id resolves to no exchange; otherwise delete that row and commit (204). -/
def delete_exchange (db : Store) (exchange_id : Nat) :
    Except HTTPErr (Store × Unit) :=
  match getExchange db exchange_id with
  | none => .error ⟨404, "Exchange not found."⟩
  | some _ =>
    .ok ({ db with exchanges := db.exchanges.filter (fun x => x.id != exchange_id) },
         ())

/-! ## User handlers (`routes/users.py`) -/

/-- `UserCreate` request schema. -/
structure UserCreate where
  username : String
  email : String
  password : String
deriving DecidableEq, Repr

/-- `UserUpdate` request schema: every field optional, `none` meaning the
field was not supplied (`exclude_unset`). -/
structure UserUpdate where
  username : Option String
  email : Option String
  password : Option String
  is_active : Option Bool
deriving DecidableEq, Repr

/-- The unique constraints `models.py` declares on the `user` table
(`username` and `email` are `unique=True`): the storage engine accepts an
insert only when the new row collides with no existing row. -/
def userInsertOk (db : Store) (u : User) : Bool :=
  db.users.all (fun v => v.username != u.username && v.email != u.email)

/-- `create_user` (`routes/users.py` lines 76-106): the handler checks only
that the *email* is not already registered (400); it performs no username
check, so a duplicate username reaches the storage engine's unique
constraint on commit and surfaces as an unhandled `IntegrityError`, which
the framework reports as a 500 (spec §7: unhandled storage exceptions
propagate as generic server errors). -/
def create_user (db : Store) (user_in : UserCreate) :
    Except HTTPErr (Store × User) :=
  if (db.users.find? (fun u => u.email == user_in.email)).isSome then
    .error ⟨400, "Email already registered"⟩
  else
    let user : User :=
      ⟨db.next_user_id, user_in.username, user_in.email,
        get_password_hash user_in.password, true, none⟩
    if userInsertOk db user then
      .ok ({ db with
               users := db.users ++ [user],
               next_user_id := db.next_user_id + 1 }, user)
    else
      .error ⟨500, "IntegrityError: UNIQUE constraint failed"⟩

/-- `update_user` (`routes/users.py` lines 109-138): 404 when the id
resolves to no user; otherwise apply exactly the supplied fields to the
fetched row, replacing a supplied password by its hash, and commit. -/
def update_user (db : Store) (user_id : Nat) (user_in : UserUpdate) :
    Except HTTPErr (Store × User) :=
  match getUser db user_id with
  | none => .error ⟨404, "User not found"⟩
  | some user =>
    let user2 : User :=
      { user with
        username := user_in.username.getD user.username,
        email := user_in.email.getD user.email,
        hashed_password :=
          match user_in.password with
          | some p => get_password_hash p
          | none => user.hashed_password,
        is_active := user_in.is_active.getD user.is_active }
    .ok ({ db with users :=
            db.users.map (fun v => if v.id == user_id then user2 else v) },
         user2)

/-- `delete_user` (`routes/users.py` lines 141-159): 404 when the id
resolves to no user; otherwise delete that row and commit (204). -/
def delete_user (db : Store) (user_id : Nat) : Except HTTPErr (Store × Unit) :=
  match getUser db user_id with
  | none => .error ⟨404, "User not found"⟩
  | some _ =>
    .ok ({ db with users := db.users.filter (fun u => u.id != user_id) }, ())

/-! ## Book handlers (`routes/books.py`) -/

/-- `BookCreate` request schema (author required in this revision). -/
structure BookCreate where
  title : String
  author : String
  grade : Option Int
  isbn : Option String
  owner_id : Nat
deriving DecidableEq, Repr

/-- The unique constraint `models.py` declares on `book.isbn`
(`unique=True`): an insert with a non-null isbn already present is refused
by the storage engine. -/
def bookInsertOk (db : Store) (b : Book) : Bool :=
  match b.isbn with
  | none => true
  | some s => db.books.all (fun c => c.isbn != some s)

/-- `create_book` (`routes/books.py` lines 72-86): the handler performs no
uniqueness check at all; it inserts the row and commits, so a duplicate
isbn reaches the storage engine's unique constraint and surfaces as an
unhandled `IntegrityError`, reported as a 500 (spec §7). -/
def create_book (db : Store) (book_in : BookCreate) (now : Nat) :
    Except HTTPErr (Store × Book) :=
  let book : Book :=
    ⟨db.next_book_id, book_in.title, some book_in.author, book_in.grade,
      book_in.isbn, now, book_in.owner_id⟩
  if bookInsertOk db book then
    .ok ({ db with
             books := db.books ++ [book],
             next_book_id := db.next_book_id + 1 }, book)
  else
    .error ⟨500, "IntegrityError: UNIQUE constraint failed"⟩

/-- `delete_book` (`routes/books.py` lines 134-152): 404 when the id
resolves to no book; otherwise delete that row and commit (204). -/
def delete_book (db : Store) (book_id : Nat) : Except HTTPErr (Store × Unit) :=
  match getBook db book_id with
  | none => .error ⟨404, "Book not found"⟩
  | some _ =>
    .ok ({ db with books := db.books.filter (fun b => b.id != book_id) }, ())

/-! ## Registration (`routes/auth.py`) -/

/-- `RegisterRequest` schema. -/
structure RegisterRequest where
  username : String
  email : String
  password : String
deriving DecidableEq, Repr

/-- `RegisterResponse` schema. -/
structure RegisterResponse where
  access_token : Token
  token_type : String
  family_id : Nat
deriving DecidableEq, Repr

/-- The duplicate check of `register_user`:
`select(User).where(or_(username == u, email == e)).first()`. -/
def registerDuplicate (db : Store) (request : RegisterRequest) : Bool :=
  (db.users.find? (fun u =>
    u.username == request.username || u.email == request.email)).isSome

/-- `register_user` (`routes/auth.py` lines 52-99): reject a duplicate
username or email with 400; otherwise create the User and commit, then
create the Family and commit, then issue a JWT for the username and return
it with the new family id.  Note the two separate `session.commit()`
calls; `register_user_commit_states` exposes the committed store after
each of them. -/
def register_user (db : Store) (request : RegisterRequest) (now : Nat) :
    Except HTTPErr (Store × RegisterResponse) :=
  if registerDuplicate db request then
    .error ⟨400, "Username or email already registered"⟩
  else
    let user : User :=
      ⟨db.next_user_id, request.username, request.email,
        get_password_hash request.password, true, none⟩
    let db1 : Store :=
      { db with users := db.users ++ [user], next_user_id := db.next_user_id + 1 }
    let family : Family := ⟨db1.next_family_id, request.username ++ " Family"⟩
    let db2 : Store :=
      { db1 with
          families := db1.families ++ [family],
          next_family_id := db1.next_family_id + 1 }
    let token := create_access_token (some user.username)
      (some (ACCESS_TOKEN_EXPIRE_MINUTES * 60)) now
    .ok (db2, ⟨token, "bearer", family.id⟩)

/-- The sequence of committed stores produced by a `register_user`
execution, one entry per `session.commit()` in source order: after the
first commit the User row is committed, after the second the Family row
is as well.  Empty when the duplicate check rejects the request before any
commit. -/
def register_user_commit_states (db : Store) (request : RegisterRequest) :
    List Store :=
  if registerDuplicate db request then
    []
  else
    let user : User :=
      ⟨db.next_user_id, request.username, request.email,
        get_password_hash request.password, true, none⟩
    let db1 : Store :=
      { db with users := db.users ++ [user], next_user_id := db.next_user_id + 1 }
    let family : Family := ⟨db1.next_family_id, request.username ++ " Family"⟩
    let db2 : Store :=
      { db1 with
          families := db1.families ++ [family],
          next_family_id := db1.next_family_id + 1 }
    [db1, db2]

/-! ## Concrete fixtures used by witnesses and counterexamples -/

/-- An empty store, as right after `init_db` on a fresh database. -/
def db0 : Store := ⟨[], [], [], [], 1, 1, 1, 1⟩

def famA : Family := ⟨1, "A Family"⟩

def famB : Family := ⟨2, "B Family"⟩

def aliceUser : User := ⟨1, "alice", "alice@x.com", get_password_hash "pw123", true, none⟩

def bobUser : User := ⟨2, "bob", "bob@x.com", get_password_hash "hunter2", false, none⟩

def book1 : Book := ⟨1, "Algebra", some "Ann", some 3, some "isbn-1", 0, 1⟩

def book2 : Book := ⟨2, "Biology", some "Bea", none, none, 0, 2⟩

def exch1 : Exchange := ⟨1, 1, 2, 1, 2, ExchangeStatus.declined, 0, 0⟩

/-- A small populated store: two families, two users, two books, one
exchange already in a terminal status. -/
def sampleStore : Store :=
  ⟨[famA, famB], [aliceUser, bobUser], [book1, book2], [exch1], 3, 3, 3, 2⟩

/-! ## Shared helper lemmas -/

/-- A `find?` for a predicate over every row that a `filter` just erased
finds nothing: deleting by primary key makes the subsequent primary-key
lookup fail. -/
theorem find_after_erase {α β : Type} [BEq β] [LawfulBEq β]
    (l : List α) (f : α → β) (i : β) :
    ((l.filter (fun a => f a != i)).find? (fun a => f a == i)) = none := by
  rw [List.find?_eq_none]
  intro a ha
  have h := List.of_mem_filter ha
  simp at h
  simp [h]

/-- A row just appended to a table is found by any predicate it
satisfies. -/
theorem find_appended_isSome {α : Type} (l : List α) (a : α) (p : α → Bool)
    (h : p a = true) : ((l ++ [a]).find? p).isSome = true := by
  rw [List.find?_isSome]
  exact ⟨a, by simp, h⟩

/-! ## Claim theorems -/

/-- C1: a create-exchange request in which the proposer family id, the
receiver family id, the offered book id, or the requested book id resolves
to no existing record fails with a validation error (HTTP 400), and the
committed store is unchanged: no Exchange row is created and no other
write occurs. -/
theorem create_exchange_invalid_reference_rejected
    (db : Store) (x : ExchangeCreate) (now : Nat)
    (h : getFamily db x.proposer_family_id = none ∨
         getFamily db x.receiver_family_id = none ∨
         getBook db x.offered_book_id = none ∨
         getBook db x.requested_book_id = none) :
    (∃ e, create_exchange db x now = .error e ∧ e.status_code = 400) ∧
    handledStore db (create_exchange db x now) = db := by
  have hres : ∃ e, create_exchange db x now = .error e ∧ e.status_code = 400 := by
    unfold create_exchange
    split
    · exact ⟨_, rfl, rfl⟩
    split
    · exact ⟨_, rfl, rfl⟩
    rename_i hc1 hc2
    exfalso
    rcases h with h | h | h | h
    · exact hc1 (by simp [h])
    · exact hc1 (by simp [h])
    · exact hc2 (by simp [h])
    · exact hc2 (by simp [h])
  obtain ⟨e, he, hcode⟩ := hres
  refine ⟨⟨e, he, hcode⟩, ?_⟩
  rw [he]
  rfl

/-- Witness for C1: in the sample store, requested book id 7 exists
nowhere, so the request is rejected with 400 and the store is untouched. -/
theorem create_exchange_invalid_reference_rejected_witness :
    (∃ e, create_exchange sampleStore ⟨1, 2, 1, 7⟩ 5 = .error e ∧ e.status_code = 400) ∧
    handledStore sampleStore (create_exchange sampleStore ⟨1, 2, 1, 7⟩ 5) = sampleStore :=
  create_exchange_invalid_reference_rejected sampleStore ⟨1, 2, 1, 7⟩ 5
    (Or.inr (Or.inr (Or.inr (by decide))))

/-- C2: a create-exchange request in which both family ids resolve to
existing Family records and both book ids resolve to existing Book records
creates exactly one new Exchange row, with status `pending` and creation
timestamp `now`, and modifies no other stored entity (users, books and
families are untouched). -/
theorem create_exchange_success_creates_pending
    (db : Store) (x : ExchangeCreate) (now : Nat)
    (h1 : (getFamily db x.proposer_family_id).isSome = true)
    (h2 : (getFamily db x.receiver_family_id).isSome = true)
    (h3 : (getBook db x.offered_book_id).isSome = true)
    (h4 : (getBook db x.requested_book_id).isSome = true) :
    ∃ db2 exch, create_exchange db x now = .ok (db2, exch) ∧
      db2.exchanges = db.exchanges ++ [exch] ∧
      exch.status = ExchangeStatus.pending ∧
      exch.created_at = now ∧
      db2.users = db.users ∧ db2.books = db.books ∧ db2.families = db.families := by
  obtain ⟨f1, hf1⟩ := Option.isSome_iff_exists.mp h1
  obtain ⟨f2, hf2⟩ := Option.isSome_iff_exists.mp h2
  obtain ⟨b1, hb1⟩ := Option.isSome_iff_exists.mp h3
  obtain ⟨b2, hb2⟩ := Option.isSome_iff_exists.mp h4
  have heq : create_exchange db x now =
      .ok ({ db with
               exchanges := db.exchanges ++
                 [⟨db.next_exchange_id, x.proposer_family_id, x.receiver_family_id,
                   x.offered_book_id, x.requested_book_id,
                   ExchangeStatus.pending, now, now⟩],
               next_exchange_id := db.next_exchange_id + 1 },
            ⟨db.next_exchange_id, x.proposer_family_id, x.receiver_family_id,
              x.offered_book_id, x.requested_book_id,
              ExchangeStatus.pending, now, now⟩) := by
    simp [create_exchange, hf1, hf2, hb1, hb2]
  exact ⟨_, _, heq, rfl, rfl, rfl, rfl, rfl, rfl⟩

/-- Witness for C2: families 1 and 2 and books 1 and 2 all exist in the
sample store, so the exchange is created pending with timestamp 5. -/
theorem create_exchange_success_creates_pending_witness :
    ∃ db2 exch, create_exchange sampleStore ⟨1, 2, 1, 2⟩ 5 = .ok (db2, exch) ∧
      db2.exchanges = sampleStore.exchanges ++ [exch] ∧
      exch.status = ExchangeStatus.pending ∧
      exch.created_at = 5 ∧
      db2.users = sampleStore.users ∧ db2.books = sampleStore.books ∧
      db2.families = sampleStore.families :=
  create_exchange_success_creates_pending sampleStore ⟨1, 2, 1, 2⟩ 5
    (by decide) (by decide) (by decide) (by decide)

/-- C3: for every existing exchange, in any current status, and every
status value in the enumerated set, `update_exchange` succeeds and
overwrites the status with the supplied value (stamping `updated_at`); no
transition relation restricts the pair of old and new status, and nothing
else in the store changes. -/
theorem update_exchange_unrestricted_overwrite
    (db : Store) (exchange_id : Nat) (new_status : ExchangeStatus) (now : Nat)
    (exch : Exchange) (h : getExchange db exchange_id = some exch) :
    ∃ db2, update_exchange db exchange_id new_status now =
        .ok (db2, { exch with status := new_status, updated_at := now }) ∧
      db2.exchanges = db.exchanges.map
        (fun x => if x.id == exchange_id then
          { exch with status := new_status, updated_at := now } else x) ∧
      db2.users = db.users ∧ db2.books = db.books ∧ db2.families = db.families := by
  refine ⟨{ db with
              exchanges := db.exchanges.map (fun x =>
                if x.id == exchange_id then
                  { exch with status := new_status, updated_at := now }
                else x) },
    ?_, rfl, rfl, rfl, rfl⟩
  simp [update_exchange, h]

/-- Witness for C3: exchange 1 of the sample store is in the terminal
status `declined`, and updating it straight to `completed` succeeds — a
transition no state machine would allow. -/
theorem update_exchange_unrestricted_overwrite_witness :
    ∃ db2, update_exchange sampleStore 1 ExchangeStatus.completed 9 =
        .ok (db2, { exch1 with status := ExchangeStatus.completed, updated_at := 9 }) ∧
      db2.exchanges = sampleStore.exchanges.map
        (fun x => if x.id == 1 then
          { exch1 with status := ExchangeStatus.completed, updated_at := 9 } else x) ∧
      db2.users = sampleStore.users ∧ db2.books = sampleStore.books ∧
      db2.families = sampleStore.families :=
  update_exchange_unrestricted_overwrite sampleStore 1 ExchangeStatus.completed 9
    exch1 (by decide)

/-- C4 counterexample: registering "alice" against the empty store commits
in two steps, and in the first committed state the User row is already
persisted while no Family row exists — so the registration's mutations are
not committed atomically: an execution that fails between the two commits
leaves the User persisted while the Family creation failed. -/
theorem register_user_intermediate_commit_lacks_family :
    ((register_user_commit_states db0 ⟨"alice", "alice@x.com", "pw123"⟩).head?.map
        (fun s => ((findUserByUsername s "alice").isSome, s.families))) =
      some (true, []) := by
  decide

/-- C4 (amended): `register_user` persists the User and the Family in two
separate commits: after the first commit the User row is persisted and the
family table is still what it was; only the second commit adds the Family
row.  A completed execution persists both, but the intermediate committed
state has the User without the Family. -/
theorem register_user_commits_user_before_family
    (db : Store) (request : RegisterRequest) (now : Nat)
    (h : registerDuplicate db request = false) :
    ∃ s1 s2 resp, register_user_commit_states db request = [s1, s2] ∧
      register_user db request now = .ok (s2, resp) ∧
      (findUserByUsername s1 request.username).isSome = true ∧
      s1.families = db.families ∧
      (findUserByUsername s2 request.username).isSome = true ∧
      s2.families.length = db.families.length + 1 := by
  refine ⟨{ db with
              users := db.users ++
                [⟨db.next_user_id, request.username, request.email,
                  get_password_hash request.password, true, none⟩],
              next_user_id := db.next_user_id + 1 },
          { db with
              users := db.users ++
                [⟨db.next_user_id, request.username, request.email,
                  get_password_hash request.password, true, none⟩],
              next_user_id := db.next_user_id + 1,
              families := db.families ++ [⟨db.next_family_id, request.username ++ " Family"⟩],
              next_family_id := db.next_family_id + 1 },
          ⟨create_access_token (some request.username)
              (some (ACCESS_TOKEN_EXPIRE_MINUTES * 60)) now, "bearer", db.next_family_id⟩,
          ?_, ?_, ?_, rfl, ?_, ?_⟩
  · simp [register_user_commit_states, h]
  · simp [register_user, h]
  · exact find_appended_isSome _ _ _ (by simp)
  · exact find_appended_isSome _ _ _ (by simp)
  · simp

/-- Witness for the amended C4 at a concrete input: registering "alice"
against the empty store. -/
theorem register_user_commits_user_before_family_witness :
    ∃ s1 s2 resp,
      register_user_commit_states db0 ⟨"alice", "alice@x.com", "pw123"⟩ = [s1, s2] ∧
      register_user db0 ⟨"alice", "alice@x.com", "pw123"⟩ 0 = .ok (s2, resp) ∧
      (findUserByUsername s1 "alice").isSome = true ∧
      s1.families = db0.families ∧
      (findUserByUsername s2 "alice").isSome = true ∧
      s2.families.length = db0.families.length + 1 :=
  register_user_commits_user_before_family db0 ⟨"alice", "alice@x.com", "pw123"⟩ 0
    (by decide)

/-- C5 counterexample: in the sample store the username "alice" is taken;
creating a user with that username and a fresh email is not rejected with
a 400 conflict — the handler checks only the email, and the duplicate
username dies on the storage engine's unique constraint as a 500.
Likewise a book with the already-taken isbn "isbn-1" is never checked by
the handler and fails with 500, not 400. -/
theorem create_duplicate_username_isbn_yields_500_not_400 :
    create_user sampleStore ⟨"alice", "new@x.com", "pw"⟩ =
      .error ⟨500, "IntegrityError: UNIQUE constraint failed"⟩ ∧
    create_book sampleStore ⟨"Other", "Bea", none, some "isbn-1", 1⟩ 3 =
      .error ⟨500, "IntegrityError: UNIQUE constraint failed"⟩ ∧
    (HTTPErr.mk 500 "IntegrityError: UNIQUE constraint failed").status_code ≠ 400 :=
  ⟨rfl, rfl, by decide⟩

/-- C5 (amended): a user create with an already-registered email fails
with 400 and creates no row; a user create with a fresh email but an
already-taken username, and a book create with an already-taken isbn, are
not checked by the handlers — they fail on the storage engine's unique
constraint with 500 (not a 400 conflict), still creating no row. -/
theorem create_conflict_email_400_username_isbn_500
    (db : Store) (user_in : UserCreate) (book_in : BookCreate) (now : Nat)
    (s : String) :
    ((∃ u ∈ db.users, u.email = user_in.email) →
      create_user db user_in = .error ⟨400, "Email already registered"⟩ ∧
      handledStore db (create_user db user_in) = db) ∧
    ((db.users.find? (fun u => u.email == user_in.email)) = none →
      (∃ u ∈ db.users, u.username = user_in.username) →
      ∃ e, create_user db user_in = .error e ∧ e.status_code = 500 ∧
        handledStore db (create_user db user_in) = db) ∧
    (book_in.isbn = some s → (∃ b ∈ db.books, b.isbn = some s) →
      ∃ e, create_book db book_in now = .error e ∧ e.status_code = 500 ∧
        handledStore db (create_book db book_in now) = db) := by
  refine ⟨?_, ?_, ?_⟩
  · rintro ⟨u, hu, hmail⟩
    have hfind : (db.users.find? (fun v => v.email == user_in.email)).isSome = true := by
      rw [List.find?_isSome]
      exact ⟨u, hu, by simp [hmail]⟩
    constructor
    · simp [create_user, hfind]
    · simp [handledStore, create_user, hfind]
  · rintro hmail ⟨u, hu, hname⟩
    have hbad : userInsertOk db
        ⟨db.next_user_id, user_in.username, user_in.email,
          get_password_hash user_in.password, true, none⟩ = false := by
      apply Bool.eq_false_iff.mpr
      intro hall
      rw [userInsertOk, List.all_eq_true] at hall
      have hc := hall u hu
      simp at hc
      exact hc.1 hname
    refine ⟨⟨500, "IntegrityError: UNIQUE constraint failed"⟩, ?_, rfl, ?_⟩
    · simp [create_user, hmail, hbad]
    · simp [handledStore, create_user, hmail, hbad]
  · rintro hisbn ⟨b, hb, hbs⟩
    have hbad : bookInsertOk db
        ⟨db.next_book_id, book_in.title, some book_in.author, book_in.grade,
          book_in.isbn, now, book_in.owner_id⟩ = false := by
      apply Bool.eq_false_iff.mpr
      intro hall
      rw [bookInsertOk] at hall
      simp only [hisbn] at hall
      rw [List.all_eq_true] at hall
      have hc := hall b hb
      simp [hbs] at hc
    refine ⟨⟨500, "IntegrityError: UNIQUE constraint failed"⟩, ?_, rfl, ?_⟩
    · simp [create_book, hbad]
    · simp [handledStore, create_book, hbad]

/-- Witness for the amended C5: in the sample store the email
"alice@x.com" is taken (400); the username "alice" with a fresh email, and
the isbn "isbn-1", are duplicates the handlers never check (500). -/
theorem create_conflict_email_400_username_isbn_500_witness :
    (create_user sampleStore ⟨"eve", "alice@x.com", "pw"⟩ =
        .error ⟨400, "Email already registered"⟩ ∧
      handledStore sampleStore (create_user sampleStore ⟨"eve", "alice@x.com", "pw"⟩) =
        sampleStore) ∧
    (∃ e, create_user sampleStore ⟨"alice", "new@x.com", "pw"⟩ = .error e ∧
      e.status_code = 500 ∧
      handledStore sampleStore (create_user sampleStore ⟨"alice", "new@x.com", "pw"⟩) =
        sampleStore) ∧
    (∃ e, create_book sampleStore ⟨"Other", "Bea", none, some "isbn-1", 1⟩ 3 = .error e ∧
      e.status_code = 500 ∧
      handledStore sampleStore
        (create_book sampleStore ⟨"Other", "Bea", none, some "isbn-1", 1⟩ 3) =
        sampleStore) :=
  ⟨(create_conflict_email_400_username_isbn_500 sampleStore ⟨"eve", "alice@x.com", "pw"⟩
      ⟨"Other", "Bea", none, some "isbn-1", 1⟩ 3 "isbn-1").1 (by decide),
   (create_conflict_email_400_username_isbn_500 sampleStore ⟨"alice", "new@x.com", "pw"⟩
      ⟨"Other", "Bea", none, some "isbn-1", 1⟩ 3 "isbn-1").2.1 (by decide) (by decide),
   (create_conflict_email_400_username_isbn_500 sampleStore ⟨"eve", "new@x.com", "pw"⟩
      ⟨"Other", "Bea", none, some "isbn-1", 1⟩ 3 "isbn-1").2.2 (by decide) (by decide)⟩

/-- C6: updating an existing user applies exactly the supplied fields:
every supplied field takes the supplied value, every field not supplied
keeps its previous value, a supplied password is stored as its hash (never
as plaintext), the row keeps its id, only that row changes, and no other
table changes. -/
theorem update_user_applies_exactly_supplied_fields
    (db : Store) (user_id : Nat) (user_in : UserUpdate) (u : User)
    (h : getUser db user_id = some u) :
    ∃ db2 u2, update_user db user_id user_in = .ok (db2, u2) ∧
      u2.username = user_in.username.getD u.username ∧
      u2.email = user_in.email.getD u.email ∧
      u2.is_active = user_in.is_active.getD u.is_active ∧
      u2.hashed_password = (match user_in.password with
        | some p => get_password_hash p
        | none => u.hashed_password) ∧
      u2.id = u.id ∧ u2.family_id = u.family_id ∧
      db2.users = db.users.map (fun v => if v.id == user_id then u2 else v) ∧
      db2.books = db.books ∧ db2.families = db.families ∧
      db2.exchanges = db.exchanges := by
  refine ⟨{ db with
              users := db.users.map (fun v =>
                if v.id == user_id then
                  { u with
                      username := user_in.username.getD u.username,
                      email := user_in.email.getD u.email,
                      hashed_password := match user_in.password with
                        | some p => get_password_hash p
                        | none => u.hashed_password,
                      is_active := user_in.is_active.getD u.is_active }
                else v) },
          { u with
              username := user_in.username.getD u.username,
              email := user_in.email.getD u.email,
              hashed_password := match user_in.password with
                | some p => get_password_hash p
                | none => u.hashed_password,
              is_active := user_in.is_active.getD u.is_active },
          ?_, rfl, rfl, rfl, rfl, rfl, rfl, rfl, rfl, rfl, rfl⟩
  simp [update_user, h]

/-- Witness for C6: updating user 1 (alice) with a new email and a new
password, leaving username and active flag unsupplied. -/
theorem update_user_applies_exactly_supplied_fields_witness :
    ∃ db2 u2, update_user sampleStore 1 ⟨none, some "alice@new.com", some "secret", none⟩ =
        .ok (db2, u2) ∧
      u2.username = "alice" ∧
      u2.email = "alice@new.com" ∧
      u2.is_active = true ∧
      u2.hashed_password = get_password_hash "secret" ∧
      u2.id = aliceUser.id ∧ u2.family_id = aliceUser.family_id ∧
      db2.users = sampleStore.users.map (fun v => if v.id == 1 then u2 else v) ∧
      db2.books = sampleStore.books ∧ db2.families = sampleStore.families ∧
      db2.exchanges = sampleStore.exchanges :=
  update_user_applies_exactly_supplied_fields sampleStore 1
    ⟨none, some "alice@new.com", some "secret", none⟩ aliceUser (by decide)

/-- C7: deleting a nonexistent id fails with 404 and changes no state, on
each of the Users, Books and Exchanges resources; and deleting the same
existing user id twice succeeds the first time and returns 404 (an error
value, not a crash) the second time. -/
theorem delete_missing_id_not_found_twice_idempotent
    (db : Store) (uid bid eid uid2 bid2 eid2 : Nat) (u : User) (b : Book) (x : Exchange)
    (hu : getUser db uid = none) (hb : getBook db bid = none)
    (he : getExchange db eid = none) (h2 : getUser db uid2 = some u)
    (h3 : getBook db bid2 = some b) (h4 : getExchange db eid2 = some x) :
    delete_user db uid = .error ⟨404, "User not found"⟩ ∧
    handledStore db (delete_user db uid) = db ∧
    delete_book db bid = .error ⟨404, "Book not found"⟩ ∧
    handledStore db (delete_book db bid) = db ∧
    delete_exchange db eid = .error ⟨404, "Exchange not found."⟩ ∧
    handledStore db (delete_exchange db eid) = db ∧
    (∃ db2, delete_user db uid2 = .ok (db2, ()) ∧
      delete_user db2 uid2 = .error ⟨404, "User not found"⟩) ∧
    (∃ db2, delete_book db bid2 = .ok (db2, ()) ∧
      delete_book db2 bid2 = .error ⟨404, "Book not found"⟩) ∧
    (∃ db2, delete_exchange db eid2 = .ok (db2, ()) ∧
      delete_exchange db2 eid2 = .error ⟨404, "Exchange not found."⟩) := by
  refine ⟨by simp [delete_user, hu], by simp [handledStore, delete_user, hu],
          by simp [delete_book, hb], by simp [handledStore, delete_book, hb],
          by simp [delete_exchange, he], by simp [handledStore, delete_exchange, he],
          ⟨{ db with users := db.users.filter (fun v => v.id != uid2) }, ?_, ?_⟩,
          ⟨{ db with books := db.books.filter (fun v => v.id != bid2) }, ?_, ?_⟩,
          ⟨{ db with exchanges := db.exchanges.filter (fun v => v.id != eid2) }, ?_, ?_⟩⟩
  · simp [delete_user, h2]
  · have hnone : getUser { db with users := db.users.filter (fun v => v.id != uid2) } uid2
        = none :=
      find_after_erase db.users (fun v => v.id) uid2
    simp [delete_user, hnone]
  · simp [delete_book, h3]
  · have hnone : getBook { db with books := db.books.filter (fun v => v.id != bid2) } bid2
        = none :=
      find_after_erase db.books (fun v => v.id) bid2
    simp [delete_book, hnone]
  · simp [delete_exchange, h4]
  · have hnone : getExchange
        { db with exchanges := db.exchanges.filter (fun v => v.id != eid2) } eid2 = none :=
      find_after_erase db.exchanges (fun v => v.id) eid2
    simp [delete_exchange, hnone]

/-- Witness for C7: ids 9 resolve to nothing on any resource of the sample
store; user 2, book 2 and exchange 1 exist, each is deleted once, and the
second delete of each returns 404. -/
theorem delete_missing_id_not_found_twice_idempotent_witness :
    delete_user sampleStore 9 = .error ⟨404, "User not found"⟩ ∧
    handledStore sampleStore (delete_user sampleStore 9) = sampleStore ∧
    delete_book sampleStore 9 = .error ⟨404, "Book not found"⟩ ∧
    handledStore sampleStore (delete_book sampleStore 9) = sampleStore ∧
    delete_exchange sampleStore 9 = .error ⟨404, "Exchange not found."⟩ ∧
    handledStore sampleStore (delete_exchange sampleStore 9) = sampleStore ∧
    (∃ db2, delete_user sampleStore 2 = .ok (db2, ()) ∧
      delete_user db2 2 = .error ⟨404, "User not found"⟩) ∧
    (∃ db2, delete_book sampleStore 2 = .ok (db2, ()) ∧
      delete_book db2 2 = .error ⟨404, "Book not found"⟩) ∧
    (∃ db2, delete_exchange sampleStore 1 = .ok (db2, ()) ∧
      delete_exchange db2 1 = .error ⟨404, "Exchange not found."⟩) :=
  delete_missing_id_not_found_twice_idempotent sampleStore 9 9 9 2 2 1
    bobUser book2 exch1 (by decide) (by decide) (by decide) (by decide) (by decide)
    (by decide)

/-- C8: verifying the registered password against its stored hash returns
true, verifying any different password against that hash returns false,
and `authenticate_user` returns a user exactly when the username resolves
to that stored record and the submitted password verifies against its
stored hash. -/
theorem verify_password_correct_and_authenticate
    (p q username : String) (db : Store) (u : User) (hq : q ≠ p) :
    verify_password p (get_password_hash p) = true ∧
    verify_password q (get_password_hash p) = false ∧
    (authenticate_user db username p = some u ↔
      findUserByUsername db username = some u ∧
      verify_password p u.hashed_password = true) := by
  refine ⟨by simp [verify_password], ?_, ?_⟩
  · show (get_password_hash p == get_password_hash q) = false
    apply beq_eq_false_iff_ne.mpr
    intro hcat
    apply hq
    rw [get_password_hash, get_password_hash] at hcat
    have h2 := congrArg String.data hcat
    simp at h2
    exact (String.ext h2).symm
  · unfold authenticate_user
    cases hfind : findUserByUsername db username with
    | none => simp
    | some v =>
      cases hv : verify_password p v.hashed_password with
      | false =>
        simp [hv]
        rintro rfl
        simp [hv]
      | true =>
        simp [hv]
        rintro rfl
        exact hv

/-- Witness for C8: alice registered with password "pw123"; it verifies,
"pw124" does not, and authentication of alice is equivalent to her record
resolving and her password verifying. -/
theorem verify_password_correct_and_authenticate_witness :
    verify_password "pw123" (get_password_hash "pw123") = true ∧
    verify_password "pw124" (get_password_hash "pw123") = false ∧
    (authenticate_user sampleStore "alice" "pw123" = some aliceUser ↔
      findUserByUsername sampleStore "alice" = some aliceUser ∧
      verify_password "pw123" aliceUser.hashed_password = true) :=
  verify_password_correct_and_authenticate "pw123" "pw124" "alice" sampleStore aliceUser
    (by decide)

/-- C9: a token issued for a subject is accepted by the verify dependency
(yielding that subject's user) at every instant strictly before its TTL
elapses; at every instant after expiry it is deterministically rejected
with the 401 credentials error (not a crash); and a token signed with any
key other than the server secret is rejected with the same 401. -/
theorem token_accepted_until_ttl_rejected_after
    (db : Store) (sub : String) (delta now0 now : Nat) (u : User) (k : String)
    (payload : TokenPayload)
    (hu : findUserByUsername db sub = some u) (hk : k ≠ SECRET_KEY) :
    (now < now0 + delta →
      get_current_user (create_access_token (some sub) (some delta) now0) db now = .ok u) ∧
    (now0 + delta < now →
      get_current_user (create_access_token (some sub) (some delta) now0) db now =
        .error credentials_exception) ∧
    get_current_user (jwt_encode payload k) db now = .error credentials_exception := by
  refine ⟨?_, ?_, ?_⟩
  · intro hlt
    have hnotexp : ¬(now0 + delta < now) := by omega
    simp [get_current_user, create_access_token, jwt_encode, jwt_decode, hmac_sign,
      hnotexp, hu]
  · intro hgt
    simp [get_current_user, create_access_token, jwt_encode, jwt_decode, hmac_sign, hgt]
  · simp [get_current_user, jwt_encode, jwt_decode, hmac_sign, Signature.mk.injEq, hk]

/-- Witness for C9: a token for alice issued at instant 0 with a
3600-second TTL, checked at instant 10; and the same payload signed with
the key "other-key". -/
theorem token_accepted_until_ttl_rejected_after_witness :
    (10 < 0 + 3600 →
      get_current_user (create_access_token (some "alice") (some 3600) 0) sampleStore 10 =
        .ok aliceUser) ∧
    (0 + 3600 < 10 →
      get_current_user (create_access_token (some "alice") (some 3600) 0) sampleStore 10 =
        .error credentials_exception) ∧
    get_current_user (jwt_encode ⟨some "alice", 3600⟩ "other-key") sampleStore 10 =
      .error credentials_exception :=
  token_accepted_until_ttl_rejected_after sampleStore "alice" 3600 0 10 aliceUser
    "other-key" ⟨some "alice", 3600⟩ (by decide) (by decide)

/-- C10: the active-user dependency returns the resolved user unchanged
without inspecting `is_active` — in particular a user with `is_active`
false passes it exactly as an active user would — so on every protected
route the dependency chain accepts exactly what `get_current_user`
accepts. -/
theorem inactive_user_accepted_as_caller
    (u : User) (token : Token) (db : Store) (now : Nat) :
    get_current_active_user u = u ∧
    get_current_active_user { u with is_active := false } = { u with is_active := false } ∧
    Except.map get_current_active_user (get_current_user token db now) =
      get_current_user token db now := by
  refine ⟨rfl, rfl, ?_⟩
  cases get_current_user token db now with
  | error e => rfl
  | ok v => rfl

end BookExchange
